import Mathlib

/-!
Shallow embedding of the authentication / authorization / tenant-isolation
core of the Ghostworks multi-tenant SaaS backend
(`services/api/auth.py`, `services/api/authorization.py`,
`services/api/security.py`, `services/api/routes/auth.py`,
`services/api/models/workspace_membership.py`), together with theorems
settling the specification claims about it.

Python exceptions are modelled with `Except`: `AuthError.http s d` is a
raised `fastapi.HTTPException(status_code = s, detail = d)`, and
`AuthError.uncaught m` is any other Python exception escaping the modelled
code (a crash from the caller's point of view).
-/

/-- A raised error: either a FastAPI `HTTPException` (status code and
detail string) or an uncaught Python exception. -/
inductive AuthError where
  | http (statusCode : Nat) (detail : String)
  | uncaught (message : String)
deriving DecidableEq, Repr

/-! ## Role model (`models/workspace_membership.py`) -/

/-- `WorkspaceRole` enum: OWNER, ADMIN, MEMBER, with their `.value` strings. -/
inductive WorkspaceRole where
  | owner
  | admin
  | member
deriving DecidableEq, Repr

/-- `.value` of the Python `str`-enum member. -/
def WorkspaceRole.value : WorkspaceRole → String
  | .owner => "owner"
  | .admin => "admin"
  | .member => "member"

/-- The `role_hierarchy` dict inside `WorkspaceMembership.has_permission`:
MEMBER ↦ 1, ADMIN ↦ 2, OWNER ↦ 3.  (The dict lookup's default `0` is
unreachable: the enum is closed and every member is a key.) -/
def roleRank : WorkspaceRole → Nat
  | .member => 1
  | .admin => 2
  | .owner => 3

/-- A row of the `workspace_memberships` table (the fields the
authorization code reads). -/
structure MembershipRec where
  user_id : String
  tenant_id : String
  role : WorkspaceRole
  is_active : Bool
deriving DecidableEq, Repr

/-- `WorkspaceMembership.has_permission(required_role)`:
`role_hierarchy.get(self.role, 0) >= role_hierarchy.get(required_role, 0)`. -/
def has_permission (m : MembershipRec) (required_role : WorkspaceRole) : Bool :=
  roleRank m.role ≥ roleRank required_role

/-- A row of the `tenants` table (only existence and activity matter here). -/
structure TenantRec where
  id : String
  is_active : Bool
deriving DecidableEq, Repr

/-- The database state visible to the authorization layer: the membership
rows and the tenant rows. -/
structure Db where
  memberships : List MembershipRec
  tenants : List TenantRec
deriving DecidableEq, Repr

/-! ## Authorization (`authorization.py`) -/

/-- `get_user_workspace_membership(user_id, workspace_id, session)`:
`SELECT ... WHERE user_id = .. AND tenant_id = .. AND is_active` followed by
`scalar_one_or_none()` (at most one row exists by the unique constraint on
`(user_id, tenant_id)`). -/
def get_user_workspace_membership (db : Db) (user_id workspace_id : String) :
    Option MembershipRec :=
  db.memberships.find? fun m =>
    m.user_id == user_id && m.tenant_id == workspace_id && m.is_active

/-- `WorkspaceNotFoundError(workspace_id)`: 404 with the fixed detail text. -/
def workspaceNotFoundError (workspace_id : String) : AuthError :=
  .http 404 ("Workspace not found or access denied: " ++ workspace_id)

/-- `require_workspace_membership(user_id, workspace_id, session)`: raises
`WorkspaceNotFoundError(workspace_id)` when the lookup returns no row,
otherwise returns the membership. -/
def require_workspace_membership (db : Db) (user_id workspace_id : String) :
    Except AuthError MembershipRec :=
  match get_user_workspace_membership db user_id workspace_id with
  | none => .error (workspaceNotFoundError workspace_id)
  | some membership => .ok membership

/-- `InsufficientPermissionsError(required_role, user_role)` with a user
role supplied (as `require_workspace_role` always does): 403 with
`"Insufficient permissions. Required: ..., Current: ..."`. -/
def insufficientPermissionsError (required_role user_role : WorkspaceRole) :
    AuthError :=
  .http 403 ("Insufficient permissions. Required: " ++ required_role.value
    ++ ", Current: " ++ user_role.value)

/-- `require_workspace_role(user_id, workspace_id, required_role, session)`:
membership is required first; then `membership.has_permission(required_role)`
gates between `InsufficientPermissionsError` and success. -/
def require_workspace_role (db : Db) (user_id workspace_id : String)
    (required_role : WorkspaceRole) : Except AuthError MembershipRec :=
  match require_workspace_membership db user_id workspace_id with
  | .error e => .error e
  | .ok membership =>
    if ¬ has_permission membership required_role then
      .error (insufficientPermissionsError required_role membership.role)
    else
      .ok membership

/-! ## Tenant context propagation (`authorization.py`) -/

/-- A database session's connection-local state: the value of the
PostgreSQL session variable `app.current_tenant_id` (`none` = unset /
reset to default). -/
structure DbSession where
  currentTenantId : Option String
deriving DecidableEq, Repr

/-- `set_tenant_context(session, tenant_id)`:
`SET app.current_tenant_id = :tenant_id`. -/
def set_tenant_context (s : DbSession) (tenant_id : String) : DbSession :=
  { s with currentTenantId := some tenant_id }

/-- `clear_tenant_context(session)`: `RESET app.current_tenant_id`. -/
def clear_tenant_context (s : DbSession) : DbSession :=
  { s with currentTenantId := none }

/-- `with_tenant_context(session, tenant_id, operation)`: inside a
`try`, the context is set and the operation awaited; the `finally` block
runs `clear_tenant_context` on the session whether the operation returned
or raised.  An operation is modelled as a state transformer returning its
result-or-exception together with the session state at exit. -/
def with_tenant_context {ε α : Type} (s : DbSession) (tenant_id : String)
    (operation : DbSession → Except ε α × DbSession) : Except ε α × DbSession :=
  let s1 := set_tenant_context s tenant_id
  let r := operation s1
  (r.1, clear_tenant_context r.2)

/-! ## Token service (`auth.py`) -/

/-- The environment-supplied settings fields this subsystem reads
(`config.py`). -/
structure Settings where
  jwt_secret_key : String
  jwt_algorithm : String
  jwt_access_token_expire_minutes : Int
  jwt_refresh_token_expire_days : Int
  cookie_secure : Bool
  cookie_httponly : Bool
  cookie_samesite : String
  cookie_domain : Option String
  environment : String
deriving DecidableEq, Repr

/-- The claim dict handed to `jwt.encode`.  Optional fields are claims a
token may simply not carry (`payload.get(k)` returns Python `None` both
for an absent key and for a stored `None`). Timestamps are integer epoch
seconds. -/
structure JwtPayload where
  sub : Option String
  email : Option String
  tenant_id : Option String
  role : Option String
  token_type : Option String
  exp : Option Int
  iat : Option Int
  jti : Option String
deriving DecidableEq, Repr

/-- A signed JWT, modelled abstractly: the payload together with the key
and algorithm it was signed with.  `jose.jwt.decode(token, key, [alg])`
recovers the payload exactly when key and algorithm match, which is the
standard shallow model of an unforgeable MAC. -/
structure Jwt where
  payload : JwtPayload
  key : String
  alg : String
deriving DecidableEq, Repr

/-- The pydantic `TokenData` model returned by `verify_token`. -/
structure TokenData where
  sub : String
  email : String
  tenant_id : Option String
  role : Option String
  token_type : String
  exp : Int
  iat : Int
  jti : String
deriving DecidableEq, Repr

/-- The access-token expiry computed inside `create_access_token`:
`now + expires_delta` when given, else
`now + timedelta(minutes = settings.jwt_access_token_expire_minutes)`. -/
def accessExpire (st : Settings) (now : Int) (expires_delta : Option Int) : Int :=
  match expires_delta with
  | some d => now + d
  | none => now + st.jwt_access_token_expire_minutes * 60

/-- `create_access_token(user_id, email, tenant_id, role, expires_delta)`:
the claim dict always carries sub, email, tenant_id, role,
`token_type = "access"`, exp, iat and a fresh jti, signed with the
configured key and algorithm.  `now` is `datetime.utcnow()` and `jti` the
generated `uuid4` string, both passed explicitly. -/
def create_access_token (st : Settings) (now : Int) (jti : String)
    (user_id email : String) (tenant_id role : Option String)
    (expires_delta : Option Int) : Jwt :=
  let expire : Int := accessExpire st now expires_delta
  { payload :=
      { sub := some user_id
        email := some email
        tenant_id := tenant_id
        role := role
        token_type := some "access"
        exp := some expire
        iat := some now
        jti := some jti }
    key := st.jwt_secret_key
    alg := st.jwt_algorithm }

/-- The refresh-token expiry computed inside `create_refresh_token`:
`now + expires_delta` when given, else
`now + timedelta(days = settings.jwt_refresh_token_expire_days)`. -/
def refreshExpire (st : Settings) (now : Int) (expires_delta : Option Int) : Int :=
  match expires_delta with
  | some d => now + d
  | none => now + st.jwt_refresh_token_expire_days * 86400

/-- `create_refresh_token(user_id, email, expires_delta)`: the claim dict
carries only sub, email, `token_type = "refresh"`, exp, iat and jti — no
tenant or role claim. -/
def create_refresh_token (st : Settings) (now : Int) (jti : String)
    (user_id email : String) (expires_delta : Option Int) : Jwt :=
  let expire : Int := refreshExpire st now expires_delta
  { payload :=
      { sub := some user_id
        email := some email
        tenant_id := none
        role := none
        token_type := some "refresh"
        exp := some expire
        iat := some now
        jti := some jti }
    key := st.jwt_secret_key
    alg := st.jwt_algorithm }

/-- `jose.jwt.decode`'s exp validation (`_validate_exp`, leeway 0): with
an `exp` claim present, `ExpiredSignatureError` is raised exactly when
`exp < now`; a missing `exp` claim is not an error at decode time. -/
def joseExpExpired (expClaim : Option Int) (now : Int) : Bool :=
  match expClaim with
  | some e => decide (e < now)
  | none => false

/-- Python `str(x)` of an optional claim value, as interpolated into the
wrong-token-type detail string. -/
def pyStr (v : Option String) : String :=
  match v with
  | some s => s
  | none => "None"

/-- `verify_token(token, expected_type)`: `jose.jwt.decode` failures
(bad signature/key/algorithm, expired `exp`) are caught as `JWTError` and
converted to a generic 401; then the `token_type` claim is compared with
`expected_type` (an f-string detail naming both on mismatch); then `sub`
and `email` must not be `None`; finally the `TokenData` is built —
`datetime.fromtimestamp(None)` for a missing `exp`/`iat` and pydantic's
required-`jti` validation are uncaught exceptions, raised outside the
`except JWTError` net.  `now` is the decode-time clock. -/
def verify_token (st : Settings) (now : Int) (token : Jwt)
    (expected_type : String) : Except AuthError TokenData :=
  if ¬ (token.key = st.jwt_secret_key ∧ token.alg = st.jwt_algorithm) then
    .error (.http 401 "Could not validate credentials")
  else if joseExpExpired token.payload.exp now then
    .error (.http 401 "Could not validate credentials")
  else if ¬ (token.payload.token_type = some expected_type) then
    .error (.http 401 ("Invalid token type. Expected " ++ expected_type
      ++ ", got " ++ pyStr token.payload.token_type))
  else
    match token.payload.sub, token.payload.email with
    | some user_id, some email =>
      match token.payload.exp with
      | none => .error (.uncaught "TypeError: fromtimestamp(None)")
      | some e =>
        match token.payload.iat with
        | none => .error (.uncaught "TypeError: fromtimestamp(None)")
        | some i =>
          match token.payload.jti with
          | none => .error (.uncaught "pydantic ValidationError: jti")
          | some j =>
            .ok { sub := user_id
                  email := email
                  tenant_id := token.payload.tenant_id
                  role := token.payload.role
                  token_type := expected_type
                  exp := e
                  iat := i
                  jti := j }
    | _, _ => .error (.http 401 "Invalid token payload")

/-! ## Password service (`auth.py`) -/

/-- A value stored in `users.hashed_password`: either a parseable bcrypt
hash record or an unreadable string passlib cannot identify. -/
inductive PwHash where
  | bcrypt (digest : String)
  | malformed (raw : String)
deriving DecidableEq, Repr

/-- passlib's `CryptContext(schemes=["bcrypt"]).verify(secret, hash)`:
identifies the hash and checks the secret against it, or raises
`UnknownHashError` when the stored hash cannot be identified.  The
underlying bcrypt comparison is abstracted as `check`. -/
def cryptContextVerify (check : String → String → Bool) (secret : String)
    (hashed : PwHash) : Except AuthError Bool :=
  match hashed with
  | .bcrypt digest => .ok (check secret digest)
  | .malformed _ => .error (.uncaught "passlib.exc.UnknownHashError")

/-- `verify_password(plain_password, hashed_password)`: a bare
`return pwd_context.verify(plain_password, hashed_password)` with no
exception handling of its own, so library errors propagate to the caller. -/
def verify_password (check : String → String → Bool)
    (plain_password : String) (hashed_password : PwHash) :
    Except AuthError Bool :=
  cryptContextVerify check plain_password hashed_password

/-! ## Users and request-level authentication (`auth.py`, `routes/auth.py`) -/

/-- A row of the `users` table (the fields the auth flows read). -/
structure UserRec where
  id : String
  email : String
  hashed_password : PwHash
  is_active : Bool
  is_verified : Bool
deriving DecidableEq, Repr

/-- The `AuthenticatedUser` pydantic model built by `get_current_user`. -/
structure AuthenticatedUser where
  id : String
  email : String
  tenant_id : Option String
  role : Option String
  is_verified : Bool
  is_active : Bool
deriving DecidableEq, Repr

/-- `select(User).where(User.id == token_data.sub)` +
`scalar_one_or_none()` over the users table. -/
def findUserById (users : List UserRec) (user_id : String) : Option UserRec :=
  users.find? fun u => u.id == user_id

/-- `get_current_user(request, credentials)` after token extraction:
`token?` is the token taken from the bearer header or the access cookie
(`none` when neither held one).  Missing token → 401 "Authentication
required"; then `verify_token(token, "access")`; then the user row is
loaded by `sub` — absent → 401 "User not found", inactive → 401 "User
account is inactive"; otherwise the `AuthenticatedUser` combines the DB
row with the token's tenant/role claims. -/
def get_current_user (st : Settings) (now : Int) (token? : Option Jwt)
    (users : List UserRec) : Except AuthError AuthenticatedUser :=
  match token? with
  | none => .error (.http 401 "Authentication required")
  | some token =>
    match verify_token st now token "access" with
    | .error e => .error e
    | .ok token_data =>
      match findUserById users token_data.sub with
      | none => .error (.http 401 "User not found")
      | some user =>
        if ¬ user.is_active then
          .error (.http 401 "User account is inactive")
        else
          .ok { id := user.id
                email := user.email
                tenant_id := token_data.tenant_id
                role := token_data.role
                is_verified := user.is_verified
                is_active := user.is_active }

/-- The `TokenResponse` returned by the login and refresh endpoints. -/
structure TokenResponse where
  access_token : Jwt
  refresh_token : Jwt
  token_type : String
  expires_in : Int
deriving DecidableEq, Repr

/-- The `demo_emails` set blocked in production by `login_user`. -/
def demo_emails : List String :=
  ["owner@acme.com", "admin@umbrella.com", "member@acme.com",
   "researcher@umbrella.com", "manager@acme.com"]

/-- `POST /auth/login` (`login_user`): block demo emails in production;
look the user up by exact email; unknown email and wrong password both →
401 "Invalid email or password"; inactive user → 401 "User account is
inactive"; on success mint an access token with **no tenant or role
arguments** (the call passes only `user_id` and `email`) plus a refresh
token, and return the token pair.  `now`, the fresh `jti`s and the bcrypt
comparison are passed explicitly. -/
def login_user (st : Settings) (now : Int) (jtiAccess jtiRefresh : String)
    (check : String → String → Bool) (users : List UserRec)
    (email password : String) : Except AuthError TokenResponse :=
  if st.environment = "production" ∧ demo_emails.contains email.toLower then
    .error (.http 401 "Demo credentials are disabled in production environments")
  else
    match users.find? (fun u => u.email == email) with
    | none => .error (.http 401 "Invalid email or password")
    | some user =>
      match verify_password check password user.hashed_password with
      | .error e => .error e
      | .ok ok =>
        if ¬ ok then
          .error (.http 401 "Invalid email or password")
        else if ¬ user.is_active then
          .error (.http 401 "User account is inactive")
        else
          .ok { access_token :=
                  create_access_token st now jtiAccess user.id user.email
                    none none none
                refresh_token :=
                  create_refresh_token st now jtiRefresh user.id user.email none
                token_type := "bearer"
                expires_in := st.jwt_access_token_expire_minutes * 60 }

/-- `POST /auth/refresh` (`refresh_token` route): `refreshToken?` is the
token from the bearer header or the refresh cookie; missing → 401
"Refresh token required"; then `verify_token(value, "refresh")`; then the
user is loaded by `sub` — absent or inactive → 401 "User not found or
inactive"; on success a new access token is minted from
`token_data.tenant_id` / `token_data.role` (the claims of the **refresh**
token) plus a new refresh token. -/
def refresh_token_endpoint (st : Settings) (now : Int)
    (jtiAccess jtiRefresh : String) (users : List UserRec)
    (refreshToken? : Option Jwt) : Except AuthError TokenResponse :=
  match refreshToken? with
  | none => .error (.http 401 "Refresh token required")
  | some tok =>
    match verify_token st now tok "refresh" with
    | .error e => .error e
    | .ok token_data =>
      match findUserById users token_data.sub with
      | none => .error (.http 401 "User not found or inactive")
      | some user =>
        if ¬ user.is_active then
          .error (.http 401 "User not found or inactive")
        else
          .ok { access_token :=
                  create_access_token st now jtiAccess user.id user.email
                    token_data.tenant_id token_data.role none
                refresh_token :=
                  create_refresh_token st now jtiRefresh user.id user.email none
                token_type := "bearer"
                expires_in := st.jwt_access_token_expire_minutes * 60 }

/-! ## Secure cookies (`security.py`) -/

/-- Python string truthiness: a `str` is falsy exactly when empty. -/
def pyTruthy (s : String) : Bool :=
  ! s.data.isEmpty

/-- Python `s.startswith(p)` over the character sequences. -/
def pyStartsWith (s p : String) : Bool :=
  s.data.take p.data.length == p.data

/-- Python slicing `s[n:]` over the character sequence. -/
def pySliceFrom (s : String) (n : Nat) : String :=
  String.mk (s.data.drop n)

/-- One `response.set_cookie(...)` call. -/
structure Cookie where
  key : String
  value : String
  expires : Int
  httponly : Bool
  secure : Bool
  samesite : String
  domain : Option String
  path : String
deriving DecidableEq, Repr

/-- `SecureCookieManager.set_auth_cookies(response, access_token,
refresh_token)`: writes the `access_token` cookie with value
`"Bearer " + access_token`, path `/`, expiring after the access-token TTL,
and the `refresh_token` cookie with value `"Bearer " + refresh_token`,
path `/auth/refresh`, expiring after the refresh-token TTL; both carry the
configured httponly/secure/samesite/domain attributes.  The token strings
are the serialized JWTs. -/
def set_auth_cookies (st : Settings) (now : Int)
    (access_token refresh_token : String) : List Cookie :=
  [{ key := "access_token"
     value := "Bearer " ++ access_token
     expires := now + st.jwt_access_token_expire_minutes * 60
     httponly := st.cookie_httponly
     secure := st.cookie_secure
     samesite := st.cookie_samesite
     domain := st.cookie_domain
     path := "/" },
   { key := "refresh_token"
     value := "Bearer " ++ refresh_token
     expires := now + st.jwt_refresh_token_expire_days * 86400
     httponly := st.cookie_httponly
     secure := st.cookie_secure
     samesite := st.cookie_samesite
     domain := st.cookie_domain
     path := "/auth/refresh" }]

/-- `request.cookies` as name/value pairs; `dict.get` is the first match. -/
def cookiesGet (cookies : List (String × String)) (name : String) :
    Option String :=
  (cookies.find? fun p => p.1 == name).map fun p => p.2

/-- `SecureCookieManager.get_token_from_cookie(request, cookie_name)`:
`cookie_value = request.cookies.get(cookie_name)`; the token
`cookie_value[7:]` is returned only when the value is truthy and starts
with `"Bearer "`; every other case returns `None`. -/
def get_token_from_cookie (cookies : List (String × String))
    (cookie_name : String) : Option String :=
  match cookiesGet cookies cookie_name with
  | none => none
  | some cookie_value =>
    if pyTruthy cookie_value ∧ pyStartsWith cookie_value "Bearer " then
      some (pySliceFrom cookie_value 7)
    else
      none

/-- Unpack an `Except.ok`, with a default for the error case (used by
witnesses to name the concrete success value of a computed call). -/
def okOr {ε α : Type} (r : Except ε α) (d : α) : α :=
  match r with
  | .ok a => a
  | .error _ => d

instance {ε α : Type} [DecidableEq ε] [DecidableEq α] : DecidableEq (Except ε α) :=
  fun x y =>
    match x, y with
    | .ok a, .ok b => decidable_of_iff (a = b) (by simp)
    | .error a, .error b => decidable_of_iff (a = b) (by simp)
    | .ok _, .error _ => .isFalse fun h => Except.noConfusion h
    | .error _, .ok _ => .isFalse fun h => Except.noConfusion h

/-! ## Concrete fixtures (used by witnesses and counterexamples) -/

/-- A concrete configuration with the default TTLs from `config.py`
(access 15 minutes, refresh 7 days). -/
def st0 : Settings :=
  { jwt_secret_key := "test-secret"
    jwt_algorithm := "HS256"
    jwt_access_token_expire_minutes := 15
    jwt_refresh_token_expire_days := 7
    cookie_secure := true
    cookie_httponly := true
    cookie_samesite := "lax"
    cookie_domain := none
    environment := "development" }

/-- An all-empty token, used only as the `okOr` default in witnesses. -/
def jwtDefault : Jwt :=
  { payload := { sub := none, email := none, tenant_id := none, role := none,
                 token_type := none, exp := none, iat := none, jti := none }
    key := ""
    alg := "" }

/-- A blank token response, used only as the `okOr` default in witnesses. -/
def respDefault : TokenResponse :=
  { access_token := jwtDefault, refresh_token := jwtDefault,
    token_type := "", expires_in := 0 }

/-- A users table with one active, verified user. -/
def users0 : List UserRec :=
  [{ id := "u1", email := "a@x.com", hashed_password := .bcrypt "pw-digest",
     is_active := true, is_verified := true }]

/-- A concrete stand-in for the abstract bcrypt comparison: the secret
matches exactly one digest. -/
def eqCheck : String → String → Bool := fun secret digest => secret == digest

/-- A database where tenant `T2` exists but has no members. -/
def dbTenantExists : Db :=
  { memberships := [], tenants := [{ id := "T2", is_active := true }] }

/-- A database where tenant `T2` does not exist at all. -/
def dbTenantMissing : Db :=
  { memberships := [], tenants := [] }

/-- An active MEMBER-role membership of user `u1` in tenant `T1`. -/
def memberRec : MembershipRec :=
  { user_id := "u1", tenant_id := "T1", role := .member, is_active := true }

/-- A database holding exactly the membership `memberRec`. -/
def dbMemberOnly : Db :=
  { memberships := [memberRec], tenants := [{ id := "T1", is_active := true }] }

/-! ## Theorems -/

/-- C1: for every session, tenant id and operation, `with_tenant_context`
first sets the tenant context (the operation runs on a session whose
`app.current_tenant_id` is the given tenant), and on every exit path —
whether the operation returns normally or raises — the returned session
state has the tenant context cleared, so no tenant binding survives the
call. -/
theorem tenant_context_scoped {ε α : Type} (s : DbSession) (tenant_id : String)
    (operation : DbSession → Except ε α × DbSession) :
    (with_tenant_context s tenant_id operation).2.currentTenantId = none
      ∧ with_tenant_context s tenant_id operation
          = ((operation (set_tenant_context s tenant_id)).1,
             clear_tenant_context (operation (set_tenant_context s tenant_id)).2)
      ∧ (set_tenant_context s tenant_id).currentTenantId = some tenant_id :=
  ⟨rfl, rfl, rfl⟩

/-- C2: for every user and tenant with no active membership between them,
`require_workspace_membership` fails with the same 404 error (same status
code and same message shape) regardless of anything else in the database —
in particular regardless of whether the tenant exists: two databases that
both lack the membership produce identical errors. -/
theorem membership_404_tenant_blind (db₁ db₂ : Db) (user_id workspace_id : String)
    (h₁ : get_user_workspace_membership db₁ user_id workspace_id = none)
    (h₂ : get_user_workspace_membership db₂ user_id workspace_id = none) :
    require_workspace_membership db₁ user_id workspace_id
        = .error (.http 404 ("Workspace not found or access denied: " ++ workspace_id))
      ∧ require_workspace_membership db₁ user_id workspace_id
        = require_workspace_membership db₂ user_id workspace_id := by
  unfold require_workspace_membership
  rw [h₁, h₂]
  exact ⟨rfl, rfl⟩

/-- C2 witness: user `u1` has no membership in tenant `T2`; whether `T2`
exists (`dbTenantExists`) or not (`dbTenantMissing`), the error is the
identical 404. -/
theorem membership_404_tenant_blind_witness :
    require_workspace_membership dbTenantExists "u1" "T2"
        = .error (.http 404 ("Workspace not found or access denied: " ++ "T2"))
      ∧ require_workspace_membership dbTenantExists "u1" "T2"
        = require_workspace_membership dbTenantMissing "u1" "T2" :=
  membership_404_tenant_blind dbTenantExists dbTenantMissing "u1" "T2" rfl rfl

/-- C3: with the fixed order MEMBER < ADMIN < OWNER, a membership whose
role rank is at least the required role's rank passes
`require_workspace_role` (exact and higher role both satisfy the check),
while a membership with role R1 fails `require_workspace_role` for R2
with `InsufficientPermissionsError` whenever rank R1 < rank R2. -/
theorem role_hierarchy_monotone (db : Db) (user_id workspace_id : String)
    (m : MembershipRec) (r1 r2 : WorkspaceRole)
    (hm : get_user_workspace_membership db user_id workspace_id = some m) :
    (roleRank r1 ≤ roleRank m.role →
        require_workspace_role db user_id workspace_id r1 = .ok m)
      ∧ (m.role = r1 → roleRank r1 < roleRank r2 →
          require_workspace_role db user_id workspace_id r2
            = .error (insufficientPermissionsError r2 r1))
      ∧ roleRank .member < roleRank .admin ∧ roleRank .admin < roleRank .owner := by
  refine ⟨?_, ?_, by decide, by decide⟩
  · intro hge
    unfold require_workspace_role require_workspace_membership
    rw [hm]
    simp [has_permission, hge]
  · intro hrole hlt
    unfold require_workspace_role require_workspace_membership
    rw [hm]
    simp [has_permission, hrole, Nat.not_le.mpr hlt]

/-- C3 witness: a MEMBER-role membership passes the MEMBER check and fails
the ADMIN check with the 403 naming required and current role. -/
theorem role_hierarchy_monotone_witness :
    require_workspace_role dbMemberOnly "u1" "T1" .member = .ok memberRec
      ∧ require_workspace_role dbMemberOnly "u1" "T1" .admin
        = .error (insufficientPermissionsError .admin .member) :=
  ⟨(role_hierarchy_monotone dbMemberOnly "u1" "T1" memberRec .member .admin (by decide)).1
      (by decide),
   (role_hierarchy_monotone dbMemberOnly "u1" "T1" memberRec .member .admin (by decide)).2.1
      rfl (by decide)⟩

/-- Helper: any `HTTPException` raised by `verify_token` has status 401. -/
theorem verify_token_http_status (st : Settings) (now : Int) (token : Jwt)
    (expected_type : String) (s : Nat) (d : String)
    (h : verify_token st now token expected_type = .error (.http s d)) : s = 401 := by
  unfold verify_token at h
  split_ifs at h <;> (repeat' split at h) <;> simp_all

/-- Helper: any `HTTPException` raised by `get_current_user` has status 401. -/
theorem get_current_user_http_status (st : Settings) (now : Int)
    (token? : Option Jwt) (users : List UserRec) (s : Nat) (d : String)
    (h : get_current_user st now token? users = .error (.http s d)) : s = 401 := by
  unfold get_current_user at h
  split at h
  · simp_all
  · split at h
    · rename_i e he
      cases e with
      | http s2 d2 =>
        have h401 : s2 = 401 := verify_token_http_status _ _ _ _ _ _ he
        simp_all
      | uncaught m => simp_all
    · split at h
      · simp_all
      · split_ifs at h
        simp_all

/-- C5 (amended): every token-verification failure and every
absent/inactive-user failure surfaces with status 401, but the detail
messages differ by sub-check (see `generic_message_counterexample`), so
only the status — not the message — is uniform. -/
theorem auth_failures_uniform_401 :
    (∀ (st : Settings) (now : Int) (token : Jwt) (expected_type : String)
        (s : Nat) (d : String),
        verify_token st now token expected_type = .error (.http s d) → s = 401)
      ∧ (∀ (st : Settings) (now : Int) (token? : Option Jwt) (users : List UserRec)
        (s : Nat) (d : String),
        get_current_user st now token? users = .error (.http s d) → s = 401) :=
  ⟨fun st now token expected_type s d h =>
      verify_token_http_status st now token expected_type s d h,
   fun st now token? users s d h =>
      get_current_user_http_status st now token? users s d h⟩

/-- C5 witness: the absent-user rejection of a structurally valid access
token is status 401. -/
theorem auth_failures_uniform_401_witness : (401 : Nat) = 401 :=
  auth_failures_uniform_401.2 st0 1000
    (some (create_access_token st0 1000 "j9" "nobody" "n@x.com" none none none)) []
    401 "User not found" (by decide)

/-- C5 counterexample: the surfaced messages are not one generic
"could not validate credentials" text.  A wrong-token-type failure names
the expected and actual type, and an absent user yields "User not found" —
both reveal which sub-check failed. -/
theorem generic_message_counterexample :
    verify_token st0 1000 (create_refresh_token st0 1000 "j1" "u1" "a@x.com" none) "access"
      = .error (.http 401 "Invalid token type. Expected access, got refresh")
    ∧ get_current_user st0 1000
        (some (create_access_token st0 1000 "j2" "ghost" "g@x.com" none none none)) []
      = .error (.http 401 "User not found")
    ∧ "Invalid token type. Expected access, got refresh" ≠ "Could not validate credentials"
    ∧ "User not found" ≠ "Could not validate credentials" := by
  decide

/-- C6 (amended): as long as the presented token is unexpired at
verification time, a refresh token checked with expected type "access"
always fails with the wrong-token-type 401, and an access token checked
with expected type "refresh" always fails with the symmetric
wrong-token-type 401 — neither is ever accepted for the other's role. -/
theorem type_isolation_unexpired (st : Settings) (nowIssue nowVerify : Int)
    (jti user_id email : String) (edR edA : Option Int) (tenant_id role : Option String)
    (hR : nowVerify ≤ refreshExpire st nowIssue edR)
    (hA : nowVerify ≤ accessExpire st nowIssue edA) :
    verify_token st nowVerify (create_refresh_token st nowIssue jti user_id email edR)
        "access"
      = .error (.http 401 "Invalid token type. Expected access, got refresh")
    ∧ verify_token st nowVerify
        (create_access_token st nowIssue jti user_id email tenant_id role edA)
        "refresh"
      = .error (.http 401 "Invalid token type. Expected refresh, got access") := by
  constructor
  · unfold verify_token create_refresh_token joseExpExpired
    simp [pyStr, Int.not_lt.mpr hR]
  · unfold verify_token create_access_token joseExpExpired
    simp [pyStr, Int.not_lt.mpr hA]

/-- C6 witness: fresh tokens verified immediately after issuance fail with
the wrong-token-type error in both directions. -/
theorem type_isolation_unexpired_witness :
    verify_token st0 1000 (create_refresh_token st0 1000 "j1" "u1" "a@x.com" none) "access"
      = .error (.http 401 "Invalid token type. Expected access, got refresh")
    ∧ verify_token st0 1000
        (create_access_token st0 1000 "j2" "u1" "a@x.com" (some "t1") (some "admin") none)
        "refresh"
      = .error (.http 401 "Invalid token type. Expected refresh, got access") :=
  type_isolation_unexpired st0 1000 1000 "j1" "u1" "a@x.com" none none
    (some "t1") (some "admin") (by decide) (by decide)

/-- C6 counterexample: with an already-elapsed ttl (`expires_delta` of
−10 seconds), verifying a refresh token with expected type "access" fails
with the generic expired-token 401, not the wrong-token-type error — the
`exp` check precedes the type check, so "always fails with WrongTokenType
for every ttl" is false. -/
theorem type_isolation_counterexample :
    verify_token st0 1000 (create_refresh_token st0 1000 "j1" "u1" "a@x.com" (some (-10)))
        "access"
      = .error (.http 401 "Could not validate credentials")
    ∧ "Could not validate credentials" ≠ "Invalid token type. Expected access, got refresh" := by
  decide

/-- C7: for all (userId, email), with a nonnegative configured access TTL,
verifying a freshly issued access token with expected type "access"
succeeds and returns claims whose subject is userId, whose email is email
and whose token type is "access". -/
theorem token_round_trip (st : Settings) (now : Int) (jti user_id email : String)
    (h : 0 ≤ st.jwt_access_token_expire_minutes) :
    verify_token st now (create_access_token st now jti user_id email none none none)
        "access"
      = .ok { sub := user_id, email := email, tenant_id := none, role := none,
              token_type := "access", exp := accessExpire st now none, iat := now,
              jti := jti } := by
  have hexp : ¬ (accessExpire st now none < now) := by
    show ¬ (now + st.jwt_access_token_expire_minutes * 60 < now)
    omega
  unfold verify_token create_access_token joseExpExpired
  simp [hexp]

/-- C7 witness: the round trip at a concrete user, email and clock. -/
theorem token_round_trip_witness :
    verify_token st0 1000 (create_access_token st0 1000 "jti-1" "u1" "alice@x.com" none none none)
        "access"
      = .ok { sub := "u1", email := "alice@x.com", tenant_id := none, role := none,
              token_type := "access", exp := accessExpire st0 1000 none, iat := 1000,
              jti := "jti-1" } :=
  token_round_trip st0 1000 "jti-1" "u1" "alice@x.com" (by decide)

/-- C8: `verify_password` against a malformed (unparseable) stored hash
does not return `false` — passlib's `UnknownHashError` propagates out of
the function as an uncaught exception, because `verify_password` wraps
`pwd_context.verify` in no error handling at all. -/
theorem verify_password_malformed_uncaught (check : String → String → Bool)
    (plain_password raw : String) :
    verify_password check plain_password (.malformed raw)
      = .error (.uncaught "passlib.exc.UnknownHashError") := rfl

/-- Helper: a `TokenData` successfully produced by `verify_token` carries
exactly the token payload's tenant and role claims. -/
theorem verify_token_ok_claims (st : Settings) (now : Int) (token : Jwt)
    (expected_type : String) (td : TokenData)
    (h : verify_token st now token expected_type = .ok td) :
    td.tenant_id = token.payload.tenant_id ∧ td.role = token.payload.role := by
  unfold verify_token at h
  split_ifs at h
  all_goals (repeat' split at h)
  all_goals cases h
  exact ⟨rfl, rfl⟩

/-- C4: whenever `POST /auth/refresh` succeeds on a refresh token minted
by `create_refresh_token`, the new access token's tenant and role claims
are `None` — the original access token's workspace context is never
preserved, because the endpoint reads tenant/role from the refresh
token's claims and `create_refresh_token` never embeds them. -/
theorem refresh_drops_workspace_context (st : Settings) (nowIssue nowRefresh : Int)
    (jti jtiAccess jtiRefresh user_id email : String) (expires_delta : Option Int)
    (users : List UserRec) (resp : TokenResponse)
    (h : refresh_token_endpoint st nowRefresh jtiAccess jtiRefresh users
          (some (create_refresh_token st nowIssue jti user_id email expires_delta))
        = .ok resp) :
    resp.access_token.payload.tenant_id = none
      ∧ resp.access_token.payload.role = none := by
  have hclaims : ∀ td, verify_token st nowRefresh
      (create_refresh_token st nowIssue jti user_id email expires_delta) "refresh"
        = .ok td → td.tenant_id = none ∧ td.role = none := by
    intro td htd
    have hc := verify_token_ok_claims _ _ _ _ _ htd
    simpa [create_refresh_token] using hc
  unfold refresh_token_endpoint at h
  split at h <;> (repeat' split at h) <;> simp_all [create_access_token]
  all_goals (cases h; exact ⟨rfl, rfl⟩)

/-- C4 witness: a successful concrete refresh of an active user's refresh
token yields an access token with no tenant and no role claim. -/
theorem refresh_drops_workspace_context_witness :
    (okOr (refresh_token_endpoint st0 10 "ja" "jr" users0
        (some (create_refresh_token st0 5 "j1" "u1" "a@x.com" none)))
      respDefault).access_token.payload.tenant_id = none
    ∧ (okOr (refresh_token_endpoint st0 10 "ja" "jr" users0
        (some (create_refresh_token st0 5 "j1" "u1" "a@x.com" none)))
      respDefault).access_token.payload.role = none :=
  refresh_drops_workspace_context st0 5 10 "j1" "ja" "jr" "u1" "a@x.com" none users0 _
    (by decide)

/-- C9: every successful `POST /auth/login` issues an access token whose
tenant_id and role claims are `None`, regardless of the user's workspace
memberships — the login call passes no tenant or role to
`create_access_token`. -/
theorem login_token_carries_no_workspace (st : Settings) (now : Int)
    (jtiAccess jtiRefresh : String) (check : String → String → Bool)
    (users : List UserRec) (email password : String) (resp : TokenResponse)
    (h : login_user st now jtiAccess jtiRefresh check users email password = .ok resp) :
    resp.access_token.payload.tenant_id = none
      ∧ resp.access_token.payload.role = none := by
  unfold login_user at h
  split_ifs at h
  all_goals (repeat' split at h)
  all_goals simp_all [create_access_token]
  cases h
  exact ⟨rfl, rfl⟩

/-- C9 witness: a concrete successful login yields an access token with no
workspace context. -/
theorem login_token_carries_no_workspace_witness :
    (okOr (login_user st0 7 "ja" "jr" eqCheck users0 "a@x.com" "pw-digest")
      respDefault).access_token.payload.tenant_id = none
    ∧ (okOr (login_user st0 7 "ja" "jr" eqCheck users0 "a@x.com" "pw-digest")
      respDefault).access_token.payload.role = none :=
  login_token_carries_no_workspace st0 7 "ja" "jr" eqCheck users0 "a@x.com" "pw-digest" _
    (by decide)

/-- Helper: a cookie value of the form "Bearer " + token is truthy. -/
theorem pyTruthy_bearer (s : String) : pyTruthy ("Bearer " ++ s) = true := rfl

/-- Helper: a cookie value of the form "Bearer " + token starts with
"Bearer ". -/
theorem pyStartsWith_bearer (s : String) : pyStartsWith ("Bearer " ++ s) "Bearer " = true := by
  unfold pyStartsWith
  rw [show ("Bearer " ++ s).data = "Bearer ".data ++ s.data from rfl, List.take_left]
  simp

/-- Helper: slicing "Bearer " + token from index 7 recovers the token. -/
theorem pySliceFrom_bearer (s : String) : pySliceFrom ("Bearer " ++ s) 7 = s := by
  unfold pySliceFrom
  rw [show ("Bearer " ++ s).data = "Bearer ".data ++ s.data from rfl,
      show (7 : Nat) = ("Bearer ".data).length from rfl, List.drop_left]

/-- C10: `get_token_from_cookie` returns `none` for any cookie value not
starting with the exact "Bearer " marker and for a missing cookie, and the
cookies written by `set_auth_cookies` round-trip back to the original
access and refresh token strings. -/
theorem cookie_bearer_round_trip :
    (∀ (cookies : List (String × String)) (name v : String),
        cookiesGet cookies name = some v → pyStartsWith v "Bearer " = false →
        get_token_from_cookie cookies name = none)
      ∧ (∀ (cookies : List (String × String)) (name : String),
        cookiesGet cookies name = none → get_token_from_cookie cookies name = none)
      ∧ (∀ (st : Settings) (now : Int) (access_token refresh_token : String),
        get_token_from_cookie
            ((set_auth_cookies st now access_token refresh_token).map fun c => (c.key, c.value))
            "access_token" = some access_token
          ∧ get_token_from_cookie
            ((set_auth_cookies st now access_token refresh_token).map fun c => (c.key, c.value))
            "refresh_token" = some refresh_token) := by
  refine ⟨?_, ?_, ?_⟩
  · intro cookies name v hget hpre
    unfold get_token_from_cookie
    rw [hget]
    simp [hpre]
  · intro cookies name hget
    unfold get_token_from_cookie
    rw [hget]
  · intro st now access_token refresh_token
    constructor <;>
      simp [get_token_from_cookie, cookiesGet, set_auth_cookies, List.find?,
        pyTruthy_bearer, pyStartsWith_bearer, pySliceFrom_bearer]

/-- C10 witness: a bare token without the marker is treated as no
credential, a missing cookie gives none, and a cookie set by
`set_auth_cookies` round-trips. -/
theorem cookie_bearer_round_trip_witness :
    get_token_from_cookie [("access_token", "raw-token-no-marker")] "access_token" = none
      ∧ get_token_from_cookie [] "access_token" = none
      ∧ get_token_from_cookie
          ((set_auth_cookies st0 0 "tokA" "tokR").map fun c => (c.key, c.value))
          "access_token" = some "tokA" :=
  ⟨cookie_bearer_round_trip.1 [("access_token", "raw-token-no-marker")] "access_token"
      "raw-token-no-marker" (by decide) (by decide),
   cookie_bearer_round_trip.2.1 [] "access_token" rfl,
   (cookie_bearer_round_trip.2.2 st0 0 "tokA" "tokR").1⟩
